import Mathlib

/-!
Verification of the pdf2epub conversion pipeline.

This file gives a shallow embedding in Lean 4 of the parts of the
pdf2epub Python package that the verified properties talk about:

* `src/pdf2epub/utils.py` — the model-cache sanitizer
  `clean_incomplete_model_downloads`, `validate_pdf_file`,
  `get_default_output_path`, and the `temporary_directory` context
  manager;
* `src/pdf2epub/marker_step.py` — `run_marker`, the extraction stage;
* `src/pdf2epub/pandoc_step.py` — `run_pandoc`, the formatting stage and
  its directive (extra_args) assembly;
* `src/pdf2epub/converter.py` — `convert`, the orchestration pipeline;
* `src/pdf2epub/cli.py` — the lowercasing of the math-format option in
  the command-line layer.

Filesystem and external-capability effects are modelled by explicit
environment records: predicates saying which paths exist, and oracles
giving the outcome of each call to the external extraction and
formatting capabilities.  Stage functions return a result value paired
with a trace recording which effects were performed (attempt counts,
sanitizer calls, directive lists, workspace cleanup), so that ordering
and frame properties can be stated.
-/

namespace Pdf2Epub

/-! ## Model cache (utils.py)

The cache layout relevant to `clean_incomplete_model_downloads` is three
levels deep: the cache root holds model-type entries, a model-type
directory holds model-version entries, and a model-version directory
holds leaf entries.  Each entry carries its name and whether it is a
directory, matching what `Path.iterdir` / `Path.is_dir` expose. -/

/-- An entry inside a model-version directory (what
`model_version_dir.iterdir()` yields). -/
structure LeafEntry where
  name : String
  isDir : Bool
deriving DecidableEq, Repr

/-- An entry directly under a model-type directory (what
`model_type_dir.iterdir()` yields). -/
structure VersionEntry where
  name : String
  isDir : Bool
  children : List LeafEntry
deriving DecidableEq, Repr

/-- An entry directly under the cache root (what `cache_dir.iterdir()`
yields). -/
structure TypeEntry where
  name : String
  isDir : Bool
  children : List VersionEntry
deriving DecidableEq, Repr

/-- The model cache root: whether `cache_dir.exists()` and its entries. -/
structure CacheDir where
  present : Bool
  entries : List TypeEntry
deriving DecidableEq, Repr

/-- utils.py: `git_files = {'.gitattributes', '.gitignore', 'README.md'}`. -/
def git_files : List String := [".gitattributes", ".gitignore", "README.md"]

/-- utils.py lines 148-160: a model-version directory is considered
incomplete when `len(files) == 0 or len(non_git_files) < 3`, where
`files = list(model_version_dir.iterdir())` (all entries, directories
included) and `non_git_files` filters out the `git_files` names. -/
def is_incomplete (v : VersionEntry) : Bool :=
  let files := v.children
  let non_git_files := files.filter (fun f => !(git_files.contains f.name))
  files.length == 0 || non_git_files.length < 3

/-- The incompleteness test as worded by the specification sentence
behind claim C3: the directory is empty, or its count of contained
*files* (non-directory entries) excluding the metadata filenames is
below 3.  Stated from the spec wording, for comparison with
`is_incomplete`, which the code computes over all entries. -/
def is_incomplete_files_only (v : VersionEntry) : Bool :=
  let files := v.children.filter (fun f => !f.isDir)
  let non_git_files := files.filter (fun f => !(git_files.contains f.name))
  v.children.length == 0 || non_git_files.length < 3

/-- utils.py lines 141-170, inner loop body for one model-version entry.
Non-directories are skipped (`continue`); an incomplete directory is
removed with `shutil.rmtree`, and a removal error is logged and
swallowed, leaving the entry in place.  The oracle `rmtree_fails` says
which removals raise.  `none` means the entry was deleted. -/
def clean_version (rmtree_fails : String → Bool) (v : VersionEntry) :
    Option VersionEntry :=
  if !v.isDir then some v
  else if is_incomplete v then
    if rmtree_fails v.name then some v else none
  else some v

/-- utils.py lines 135-139: one model-type entry.  Non-directories are
skipped (`continue`); for a directory, every version entry is processed
in turn. -/
def clean_type (rmtree_fails : String → Bool) (t : TypeEntry) : TypeEntry :=
  if !t.isDir then t
  else { t with children := t.children.filterMap (clean_version rmtree_fails) }

/-- utils.py `clean_incomplete_model_downloads`: a no-op when the cache
root does not exist; otherwise every entry under the root is processed. -/
def clean_incomplete_model_downloads (rmtree_fails : String → Bool)
    (c : CacheDir) : CacheDir :=
  if !c.present then c
  else { c with entries := c.entries.map (clean_type rmtree_fails) }

/-! ## Path helpers (utils.py / pathlib)

The pieces of `pathlib` behaviour the pipeline relies on are modelled
over path strings: the final path component, dropping the last
extension (`Path.stem` / `Path.with_suffix`), and the final extension
(`Path.suffix`, which is `name[i:]` when the last dot of the final
component sits at an index `i` with `0 < i < len(name) - 1`, and empty
otherwise — so dotfiles and trailing dots have no suffix). -/

/-- Split a character list at every occurrence of a separator, keeping
empty pieces, like the string split of the standard library. -/
def split_on_char (sep : Char) : List Char → List (List Char)
  | [] => [[]]
  | c :: rest =>
      let r := split_on_char sep rest
      if c == sep then [] :: r
      else
        match r with
        | [] => [[c]]
        | h :: t => (c :: h) :: t

/-- Join character-list pieces with a separator, inverse of the split. -/
def join_chars (sep : Char) : List (List Char) → List Char
  | [] => []
  | [x] => x
  | x :: y :: t => x ++ sep :: join_chars sep (y :: t)

/-- Final component of a path string. -/
def last_component (p : String) : String :=
  match (split_on_char '/' p.data).getLast? with
  | some cs => String.mk cs
  | none => p

/-- Drop the last `.ext` of a file name (no-op when there is no dot). -/
def drop_last_ext (s : String) : String :=
  match split_on_char '.' s.data with
  | [] => s
  | [_] => s
  | parts => String.mk (join_chars '.' parts.dropLast)

/-- `Path(p).stem`: final component without its last extension. -/
def path_stem (p : String) : String := drop_last_ext (last_component p)

/-- `Path(p).suffix`: the extension of the final component, empty when
the last dot is the first or last character of the name. -/
def path_suffix (p : String) : String :=
  let cs := (last_component p).data
  match cs.reverse.findIdx? (fun c => c == '.') with
  | none => ""
  | some k =>
      let idx := cs.length - 1 - k
      if 0 < idx ∧ idx < cs.length - 1 then String.mk (cs.drop idx) else ""

/-- utils.py line 66: `path.suffix.lower() == ".pdf"` — the extension
test of `validate_pdf_file`, compared case-insensitively. -/
def has_pdf_suffix (p : String) : Bool :=
  ((path_suffix p).data.map Char.toLower) == (".pdf" : String).data

/-- utils.py `get_default_output_path`: `Path(input).with_suffix(ext)`. -/
def get_default_output_path (input_path : String) (extension : String) :
    String :=
  let comps := split_on_char '/' input_path.data
  match comps.getLast? with
  | none => input_path ++ extension
  | some name =>
      String.mk (join_chars '/' (comps.dropLast ++
        [(drop_last_ext (String.mk name) ++ extension).data]))

/-- Result of utils.py `validate_pdf_file`. -/
inductive ValidateResult
  | not_found (msg : String)
  | value_error (msg : String)
  | ok (path : String)
deriving DecidableEq, Repr

/-- utils.py `validate_pdf_file`: existence is checked first, then
`is_file`, then the case-insensitive `.pdf` suffix test. -/
def validate_pdf_file (path_exists is_file : String → Bool)
    (file_path : String) : ValidateResult :=
  if !path_exists file_path then .not_found ("File not found: " ++ file_path)
  else if !is_file file_path then .value_error ("Not a file: " ++ file_path)
  else if !(has_pdf_suffix file_path) then
    .value_error ("Not a PDF file: " ++ file_path)
  else .ok file_path

/-! ## Extraction stage (marker_step.py) -/

/-- Result of `run_marker`.  `unavailable` is the ImportError raised by
the availability check; `marker_error` is the MarkerError wrapper. -/
inductive MarkerResult
  | unavailable (msg : String)
  | marker_error (msg : String)
  | ok (markdown_path images_dir : String)
deriving DecidableEq, Repr

/-- Effects performed by a `run_marker` call: how many times the body of
the try block (the extraction attempt: model creation and conversion)
was entered, and how many times `clean_incomplete_model_downloads` was
invoked. -/
structure MarkerTrace where
  attempts : Nat
  sanitize_calls : Nat
deriving DecidableEq, Repr

/-- marker_step.py lines 52-59: the ImportError message of the
availability check. -/
def marker_install_msg : String :=
  "marker-pdf is not installed. Install it with: pip install marker-pdf"

/-- Environment of the extraction stage: whether the `marker` package
imports, and the outcome of the n-th extraction attempt (`some msg`
means the attempt raised with that message). -/
structure MarkerEnv where
  marker_available : Bool
  attempt_outcome : Nat → Option String

/-- marker_step.py `run_marker` (lines 38-116): the availability check
comes first; then a single try block performs the extraction attempt,
whose failure is wrapped in MarkerError.  There is no inspection of the
failure message, no call to the cache sanitizer, and no second attempt. -/
def run_marker (env : MarkerEnv) (pdf_path output_dir : String) :
    MarkerResult × MarkerTrace :=
  if !env.marker_available then (.unavailable marker_install_msg, ⟨0, 0⟩)
  else
    match env.attempt_outcome 0 with
    | some msg =>
        (.marker_error ("Failed to convert PDF with marker: " ++ msg), ⟨1, 0⟩)
    | none =>
        (.ok (output_dir ++ "/" ++ path_stem pdf_path ++ ".md")
          (output_dir ++ "/images"), ⟨1, 0⟩)

/-- The failure-message signature of the corrupted-download class, as the
spec and the repository's tests write it. -/
def corruption_signature : String := "already exists"

/-- A concrete failure message carrying the corruption signature (the one
used by tests/test_marker_step.py). -/
def corruption_msg : String :=
  "Destination path 'models/layout/.gitattributes' already exists"

/-- An extraction environment whose capability fails on every attempt
with the corruption-signature message. -/
def marker_env_always_corrupt : MarkerEnv :=
  ⟨true, fun _ => some corruption_msg⟩

/-! ## Formatting stage (pandoc_step.py) -/

/-- The pandoc command-line directives assembled by `run_pandoc` into
`extra_args`, in structured form: each constructor stands for one
directive (a flag together with its value, when it has one). -/
inductive Directive
  | resource_path (dir : String)
  | mathml
  | webtex
  | metadata (kv : String)
  | epub_cover_image (path : String)
  | standalone
  | toc
deriving DecidableEq, Repr

/-- pandoc_step.py lines 69-77: the math-rendering directive.  The
comparisons are exact string equality, `mathml` tested first. -/
def math_args (math_format : String) : List Directive :=
  if math_format == "mathml" then [.mathml]
  else if math_format == "svg" then [.webtex]
  else []

/-- pandoc_step.py lines 61-113: assembly of `extra_args`, in source
order: resource path (when the images directory exists), math rendering,
title and author metadata (only when truthy, i.e. non-empty), language
metadata (always), publication-date metadata (always, with today's
ISO-8601 date), cover image (when given, truthy and existing), then
`--standalone` and `--toc`. -/
def build_extra_args (path_exists : String → Bool) (images_dir : String)
    (title author cover : Option String)
    (math_format language today : String) : List Directive :=
  (if path_exists images_dir then [.resource_path images_dir] else [])
  ++ math_args math_format
  ++ (match title with
      | some t => if t == "" then [] else [.metadata ("title=" ++ t)]
      | none => [])
  ++ (match author with
      | some a => if a == "" then [] else [.metadata ("author=" ++ a)]
      | none => [])
  ++ [.metadata ("lang=" ++ language)]
  ++ [.metadata ("date=" ++ today)]
  ++ (match cover with
      | some cp =>
          if cp == "" then []
          else if path_exists cp then [.epub_cover_image cp] else []
      | none => [])
  ++ [.standalone, .toc]

/-- Result of `run_pandoc`.  `unavailable` is the ImportError of the
availability check; `pandoc_error` is the PandocError wrapper. -/
inductive PandocResult
  | unavailable (msg : String)
  | pandoc_error (msg : String)
  | ok (path : String)
deriving DecidableEq, Repr

/-- Effects of a `run_pandoc` call: whether `pypandoc.convert_file` was
invoked, and the directive list passed to it. -/
structure PandocTrace where
  convert_attempted : Bool
  extra_args : List Directive
deriving DecidableEq, Repr

/-- pandoc_step.py lines 44-50: the ImportError message of the
availability check. -/
def pypandoc_install_msg : String :=
  "pypandoc is not installed. Install it with: pip install pypandoc"

/-- Outcome of the `pypandoc.convert_file` call: it raises with a
message, or returns, in which case the flag records whether a file
exists at the destination path afterwards. -/
inductive PandocOutcome
  | raises (msg : String)
  | returns (output_created : Bool)
deriving DecidableEq, Repr

/-- Environment of the formatting stage. -/
structure PandocEnv where
  pypandoc_available : Bool
  path_exists : String → Bool
  today : String
  pandoc : PandocOutcome

/-- Python default for the `language` argument of `run_pandoc` and
`convert`. -/
def default_language : String := "en"

/-- Python default for the `math_format` argument of `run_pandoc` and
`convert`. -/
def default_math_format : String := "svg"

/-- pandoc_step.py `run_pandoc` (lines 25-136): the availability check
comes first; the directive list is assembled; `pypandoc.convert_file`
runs inside a try block.  A raise is wrapped in PandocError; when the
call returns but no file exists at the destination, a PandocError is
raised inside the try and re-wrapped by the same handler; otherwise the
destination path is returned. -/
def run_pandoc (env : PandocEnv) (markdown_path output_path images_dir : String)
    (title author cover : Option String) (math_format language : String) :
    PandocResult × PandocTrace :=
  if !env.pypandoc_available then (.unavailable pypandoc_install_msg, ⟨false, []⟩)
  else
    let args := build_extra_args env.path_exists images_dir title author cover
      math_format language env.today
    match env.pandoc with
    | .raises msg =>
        (.pandoc_error ("Failed to convert Markdown to EPUB: " ++ msg),
         ⟨true, args⟩)
    | .returns created =>
        if !created then
          (.pandoc_error ("Failed to convert Markdown to EPUB: " ++
            ("EPUB file was not created: " ++ output_path)), ⟨true, args⟩)
        else (.ok output_path, ⟨true, args⟩)

/-! ## Command-line layer (cli.py) -/

/-- cli.py line 119: the CLI passes `math_format.lower()` to `convert` —
modelled as lowercasing every character of the option value. -/
def cli_math_format (option_value : String) : String :=
  ⟨option_value.data.map Char.toLower⟩

/-! ## Orchestration pipeline (converter.py) -/

/-- Result of `convert`: the exception class that escapes, or the output
path on success. -/
inductive ConvertResult
  | file_not_found (msg : String)
  | value_error (msg : String)
  | unavailable (msg : String)
  | marker_error (msg : String)
  | pandoc_error (msg : String)
  | os_error (msg : String)
  | ok (path : String)
deriving DecidableEq, Repr

/-- Environment of a `convert` call: filesystem predicates, the
workspace path handed out by `tempfile.mkdtemp`, the two capability
environments, the outcome of the optional markdown copy, and the
behaviour of the cleanup in `temporary_directory`'s finally block
(`temp_path.exists()` at cleanup time, and whether `shutil.rmtree`
fails — a failure `ignore_errors=True` suppresses). -/
structure ConvertEnv where
  path_exists : String → Bool
  is_file : String → Bool
  temp_dir : String
  marker_available : Bool
  marker_attempt_outcome : Nat → Option String
  copy_markdown_fails : Option String
  pypandoc_available : Bool
  today : String
  pandoc : PandocOutcome
  temp_present_at_cleanup : Bool
  rmtree_fails : Bool

/-- Effects of a `convert` call. -/
structure ConvertTrace where
  workspace_created : Bool
  marker_invoked : Bool
  pandoc_invoked : Bool
  pandoc_extra_args : List Directive
  cleanup_run : Bool
  workspace_present_after : Bool
deriving DecidableEq, Repr

/-- Trace of an execution that failed validation: no workspace was ever
created, neither stage was invoked. -/
def no_workspace_trace : ConvertTrace := ⟨false, false, false, [], false, false⟩

/-- The body of `convert`'s `with temporary_directory()` block
(converter.py lines 70-101): run the extraction stage, optionally copy
the markdown aside, run the formatting stage.  Any exception propagates
(the `except` clause only logs and re-raises).  Returns the result plus
(marker invoked, pandoc invoked, pandoc directive list). -/
def convert_body (menv : MarkerEnv) (copy_markdown_fails : Option String)
    (penv : PandocEnv) (pdf_path temp_dir out : String)
    (title author cover : Option String) (math_format : String)
    (save_markdown : Option String) (language : String) :
    ConvertResult × Bool × Bool × List Directive :=
  match run_marker menv pdf_path temp_dir with
  | (.unavailable msg, _) => (.unavailable msg, true, false, [])
  | (.marker_error msg, _) => (.marker_error msg, true, false, [])
  | (.ok markdown_path images_dir, _) =>
      let copy_outcome : Option String :=
        match save_markdown with
        | some s => if s == "" then none else copy_markdown_fails
        | none => none
      match copy_outcome with
      | some msg => (.os_error msg, true, false, [])
      | none =>
          match run_pandoc penv markdown_path out images_dir title author cover
              math_format language with
          | (.unavailable msg, tr) => (.unavailable msg, true, true, tr.extra_args)
          | (.pandoc_error msg, tr) => (.pandoc_error msg, true, true, tr.extra_args)
          | (.ok path, tr) => (.ok path, true, true, tr.extra_args)

/-- converter.py `convert` (lines 14-103): validate the input (existence
first), compute the default output path when none is given, create the
temporary workspace, run the two stages inside it, and in every case run
the cleanup of `temporary_directory`'s finally block: when the workspace
still exists it is removed with `shutil.rmtree(ignore_errors=True)`,
whose failure is suppressed and leaves the directory in place. -/
def convert (env : ConvertEnv) (pdf_path : String) (output_path : Option String)
    (title author cover : Option String) (math_format : String)
    (save_markdown : Option String) (language : String) :
    ConvertResult × ConvertTrace :=
  match validate_pdf_file env.path_exists env.is_file pdf_path with
  | .not_found msg => (.file_not_found msg, no_workspace_trace)
  | .value_error msg => (.value_error msg, no_workspace_trace)
  | .ok validated =>
      let out := match output_path with
        | some o => o
        | none => get_default_output_path validated ".epub"
      let menv : MarkerEnv := ⟨env.marker_available, env.marker_attempt_outcome⟩
      let penv : PandocEnv :=
        ⟨env.pypandoc_available, env.path_exists, env.today, env.pandoc⟩
      let b := convert_body menv env.copy_markdown_fails penv validated
        env.temp_dir out title author cover math_format save_markdown language
      (b.1, ⟨true, b.2.1, b.2.2.1, b.2.2.2, true,
        env.temp_present_at_cleanup && env.rmtree_fails⟩)

/-! ## Lemmas about the cache sanitizer -/

/-- `clean_version` either deletes an entry or returns it unchanged. -/
lemma clean_version_eq_some {fail : String → Bool} {u v : VersionEntry}
    (h : clean_version fail u = some v) : u = v := by
  unfold clean_version at h
  split_ifs at h <;> simp_all

/-- A non-directory entry is skipped by the version loop. -/
lemma clean_version_not_dir {fail : String → Bool} {v : VersionEntry}
    (h : v.isDir = false) : clean_version fail v = some v := by
  simp [clean_version, h]

/-- Membership in the children of a cleaned model-type directory. -/
lemma mem_clean_type_children {fail : String → Bool} {t : TypeEntry}
    (ht : t.isDir = true) (v : VersionEntry) :
    v ∈ (clean_type fail t).children ↔
      v ∈ t.children ∧ clean_version fail v = some v := by
  simp only [clean_type, ht, Bool.not_true, Bool.false_eq_true, if_false,
    List.mem_filterMap]
  constructor
  · rintro ⟨u, hu, hcu⟩
    have := clean_version_eq_some hcu
    subst this
    exact ⟨hu, hcu⟩
  · rintro ⟨hv, hcv⟩
    exact ⟨v, hv, hcv⟩

/-- The version loop keeps an entry exactly when it is a non-directory,
or complete, or its removal failed. -/
lemma clean_version_some_iff (fail : String → Bool) (v : VersionEntry) :
    clean_version fail v = some v ↔
      (v.isDir = false ∨ is_incomplete v = false ∨ fail v.name = true) := by
  unfold clean_version
  split_ifs with h1 h2 h3 <;> simp_all

/-- A concrete model-version directory holding three non-metadata
subdirectories and no regular file. -/
def version_with_three_subdirs : VersionEntry :=
  ⟨"2025_02_18", true,
    [⟨"blocks", true⟩, ⟨"encoder", true⟩, ⟨"decoder", true⟩]⟩

/-- A cache containing only that version directory. -/
def cache_with_subdir_version : CacheDir :=
  ⟨true, [⟨"layout", true, [version_with_three_subdirs]⟩]⟩

/-- C3 counterexample: a model-version directory with three non-metadata
subdirectories and zero regular files is classified incomplete by the
claim's file-only count (0 files < 3), yet the sanitizer preserves it
unchanged, because the code counts all directory entries. -/
theorem C3_files_only_count_counterexample :
    is_incomplete_files_only version_with_three_subdirs = true ∧
    clean_incomplete_model_downloads (fun _ => false) cache_with_subdir_version =
      cache_with_subdir_version := by
  constructor
  · decide
  · decide

/-- C3 (amended: the threshold counts directory entries, files and
subdirectories alike): the sanitizer is a no-op when the cache root does
not exist; a model-version directory is deleted iff it is empty or has
fewer than 3 non-metadata entries and its removal did not fail; an entry
whose removal raises is left in place with the error swallowed, every
other entry still being processed; kept entries are preserved unchanged. -/
theorem C3_sanitizer_deletes_iff_incomplete :
    (∀ (fail : String → Bool) (c : CacheDir), c.present = false →
       clean_incomplete_model_downloads fail c = c) ∧
    (∀ (fail : String → Bool) (t : TypeEntry) (v : VersionEntry),
       t.isDir = true → v ∈ t.children → v.isDir = true →
       (v ∉ (clean_type fail t).children ↔
         ((v.children.length = 0 ∨
           (v.children.filter (fun f => !(git_files.contains f.name))).length < 3)
          ∧ fail v.name = false))) := by
  constructor
  · intro fail c hc
    simp [clean_incomplete_model_downloads, hc]
  · intro fail t v ht hv hdir
    rw [mem_clean_type_children ht v]
    simp only [hv, true_and, clean_version_some_iff, hdir]
    constructor
    · intro h
      push_neg at h
      obtain ⟨h1, h2, h3⟩ := h
      refine ⟨?_, by simpa using h3⟩
      have : is_incomplete v = true := by simpa using h2
      simp only [is_incomplete] at this
      rcases Bool.or_eq_true_iff.mp this with h | h
      · exact Or.inl (by simpa using h)
      · exact Or.inr (by simpa using h)
    · rintro ⟨h1, h2⟩ h
      rcases h with h | h | h
      · simp [hdir] at h
      · have : is_incomplete v = true := by
          simp only [is_incomplete]
          rcases h1 with h1 | h1
          · exact Bool.or_eq_true_iff.mpr (Or.inl (by simpa using h1))
          · exact Bool.or_eq_true_iff.mpr (Or.inr (by simpa using h1))
        simp [this] at h
      · simp [h2] at h

/-- C3 witness: in a concrete cache, the surviving-entry equivalence is
applied to a version directory with three non-metadata subdirectories,
confirming the sanitizer keeps it. -/
theorem C3_sanitizer_deletes_iff_incomplete_witness :
    version_with_three_subdirs ∈
      (clean_type (fun _ => false)
        ⟨"layout", true, [version_with_three_subdirs]⟩).children := by
  by_contra h
  have := (C3_sanitizer_deletes_iff_incomplete.2 (fun _ => false)
    ⟨"layout", true, [version_with_three_subdirs]⟩ version_with_three_subdirs
    rfl (by simp) rfl).mp h
  revert this
  decide

/-- C9: the sanitizer only ever deletes second-level (model-version)
directories.  The cache root's presence is unchanged; first-level
entries are never deleted and keep their name and kind, so model-type
directories survive even when empty; non-directory entries directly
under the cache root or under a model-type directory are preserved
unchanged; and the incompleteness count ranges over all directory
entries, so reclassifying every child between file and subdirectory
never changes the classification. -/
theorem C9_sanitizer_frame :
    (∀ (fail : String → Bool) (c : CacheDir),
       (clean_incomplete_model_downloads fail c).present = c.present) ∧
    (∀ (fail : String → Bool) (c : CacheDir),
       (clean_incomplete_model_downloads fail c).entries.map
           (fun t => (t.name, t.isDir)) =
         c.entries.map (fun t => (t.name, t.isDir))) ∧
    (∀ (fail : String → Bool) (c : CacheDir) (t : TypeEntry),
       c.present = true → t ∈ c.entries → t.isDir = false →
       t ∈ (clean_incomplete_model_downloads fail c).entries) ∧
    (∀ (fail : String → Bool) (t : TypeEntry) (v : VersionEntry),
       v ∈ t.children → v.isDir = false →
       v ∈ (clean_type fail t).children) ∧
    (∀ (v : VersionEntry) (g : Bool),
       is_incomplete
         { v with children := v.children.map (fun f => ⟨f.name, g⟩) } =
         is_incomplete v) := by
  refine ⟨?_, ?_, ?_, ?_, ?_⟩
  · intro fail c
    unfold clean_incomplete_model_downloads
    split <;> rfl
  · intro fail c
    unfold clean_incomplete_model_downloads
    split
    · rfl
    · simp only [List.map_map]
      refine List.map_congr_left ?_
      intro t _
      simp only [Function.comp_apply]
      unfold clean_type
      split <;> rfl
  · intro fail c t hc ht hdir
    simp only [clean_incomplete_model_downloads, hc, Bool.not_true,
      Bool.false_eq_true, if_false, List.mem_map]
    refine ⟨t, ht, ?_⟩
    simp [clean_type, hdir]
  · intro fail t v hv hdir
    unfold clean_type
    split
    · exact hv
    · exact List.mem_filterMap.mpr ⟨v, hv, clean_version_not_dir hdir⟩
  · intro v g
    simp only [is_incomplete, List.filter_map, List.length_map]
    rfl

/-- C9 witness: in a concrete cache holding a stray file at the root, an
empty model-type directory, and a lockfile sitting next to a version
directory, the frame properties are applied at those entries. -/
theorem C9_sanitizer_frame_witness :
    ((clean_incomplete_model_downloads (fun _ => false)
        ⟨true, [⟨"stray.txt", false, []⟩, ⟨"layout", true, []⟩]⟩).present = true) ∧
    (⟨"stray.txt", false, []⟩ : TypeEntry) ∈
      (clean_incomplete_model_downloads (fun _ => false)
        ⟨true, [⟨"stray.txt", false, []⟩, ⟨"layout", true, []⟩]⟩).entries ∧
    (⟨"layout.lock", false, []⟩ : VersionEntry) ∈
      (clean_type (fun _ => false)
        ⟨"layout", true, [⟨"layout.lock", false, []⟩]⟩).children := by
  refine ⟨?_, ?_, ?_⟩
  · exact C9_sanitizer_frame.1 (fun _ => false)
      ⟨true, [⟨"stray.txt", false, []⟩, ⟨"layout", true, []⟩]⟩
  · exact C9_sanitizer_frame.2.2.1 (fun _ => false)
      ⟨true, [⟨"stray.txt", false, []⟩, ⟨"layout", true, []⟩]⟩
      ⟨"stray.txt", false, []⟩ rfl (by simp) rfl
  · exact C9_sanitizer_frame.2.2.2.1 (fun _ => false)
      ⟨"layout", true, [⟨"layout.lock", false, []⟩]⟩
      ⟨"layout.lock", false, []⟩ (by simp) rfl

/-- C1: evaluation of the extraction stage as implemented, at an input
whose capability fails on every attempt with the corruption-signature
message.  The stage makes exactly one extraction attempt, never invokes
the cache sanitizer, and raises the MarkerError wrapper immediately —
in particular there is no sanitize-and-retry cycle, so a capability
failing twice with the signature produces 1 attempt and 0 sanitize
calls, not the specified 2 attempts and 1 sanitize call. -/
theorem C1_run_marker_no_sanitize_retry :
    run_marker marker_env_always_corrupt "book.pdf" "/tmp/work" =
      (.marker_error ("Failed to convert PDF with marker: " ++ corruption_msg),
       ⟨1, 0⟩) ∧
    List.IsInfix corruption_signature.data corruption_msg.data := by
  constructor
  · rfl
  · decide

/-- C2: when pypandoc is importable, if the formatting capability
returns without raising but no file exists at the destination path
afterwards, `run_pandoc` raises a PandocError (the missing-output
failure re-wrapped by the surrounding handler); when it returns and the
file exists, the stage succeeds with exactly the destination path. -/
theorem C2_pandoc_output_postcondition :
    ∀ (env : PandocEnv) (md out img : String) (title author cover : Option String)
      (mf lang : String),
    env.pypandoc_available = true →
    ((env.pandoc = .returns false →
       (run_pandoc env md out img title author cover mf lang).1 =
         .pandoc_error ("Failed to convert Markdown to EPUB: " ++
           ("EPUB file was not created: " ++ out))) ∧
     (env.pandoc = .returns true →
       (run_pandoc env md out img title author cover mf lang).1 = .ok out)) := by
  intro env md out img title author cover mf lang ha
  constructor
  · intro hp
    simp [run_pandoc, ha, hp]
  · intro hp
    simp [run_pandoc, ha, hp]

/-- C2 witness: a concrete formatting environment whose capability
returns silently without creating the output file yields the PandocError,
and one that creates the file yields the destination path. -/
theorem C2_pandoc_output_postcondition_witness :
    (run_pandoc ⟨true, fun _ => false, "2026-10-12", .returns false⟩
        "b.md" "b.epub" "imgs" none none none "svg" "en").1 =
      .pandoc_error ("Failed to convert Markdown to EPUB: " ++
        ("EPUB file was not created: " ++ "b.epub")) ∧
    (run_pandoc ⟨true, fun _ => false, "2026-10-12", .returns true⟩
        "b.md" "b.epub" "imgs" none none none "svg" "en").1 = .ok "b.epub" := by
  constructor
  · exact (C2_pandoc_output_postcondition
      ⟨true, fun _ => false, "2026-10-12", .returns false⟩
      "b.md" "b.epub" "imgs" none none none "svg" "en" rfl).1 rfl
  · exact (C2_pandoc_output_postcondition
      ⟨true, fun _ => false, "2026-10-12", .returns true⟩
      "b.md" "b.epub" "imgs" none none none "svg" "en" rfl).2 rfl

/-- C8: in both stages the availability check precedes any conversion
attempt: an unavailable extraction capability yields the ImportError
with installation guidance after zero extraction attempts, and an
unavailable formatting capability yields its ImportError without the
pypandoc call ever being attempted; in neither case is the condition
wrapped into MarkerError or PandocError. -/
theorem C8_capability_check_precedes_attempt :
    (∀ (env : MarkerEnv) (p o : String), env.marker_available = false →
       run_marker env p o = (.unavailable marker_install_msg, ⟨0, 0⟩) ∧
       ∀ m, (run_marker env p o).1 ≠ .marker_error m) ∧
    (∀ (env : PandocEnv) (md out img : String)
       (title author cover : Option String) (mf lang : String),
       env.pypandoc_available = false →
       run_pandoc env md out img title author cover mf lang =
         (.unavailable pypandoc_install_msg, ⟨false, []⟩) ∧
       ∀ m, (run_pandoc env md out img title author cover mf lang).1 ≠
         .pandoc_error m) := by
  constructor
  · intro env p o h
    refine ⟨by simp [run_marker, h], ?_⟩
    intro m
    simp [run_marker, h]
  · intro env md out img title author cover mf lang h
    refine ⟨by simp [run_pandoc, h], ?_⟩
    intro m
    simp [run_pandoc, h]

/-- C8 witness: concrete environments with the capability missing yield
exactly the capability-unavailable results with zero attempts. -/
theorem C8_capability_check_precedes_attempt_witness :
    run_marker ⟨false, fun _ => none⟩ "book.pdf" "/tmp/work" =
      (.unavailable marker_install_msg, ⟨0, 0⟩) ∧
    run_pandoc ⟨false, fun _ => false, "2026-10-12", .returns true⟩
        "b.md" "b.epub" "imgs" none none none "svg" "en" =
      (.unavailable pypandoc_install_msg, ⟨false, []⟩) := by
  constructor
  · exact (C8_capability_check_precedes_attempt.1
      ⟨false, fun _ => none⟩ "book.pdf" "/tmp/work" rfl).1
  · exact (C8_capability_check_precedes_attempt.2
      ⟨false, fun _ => false, "2026-10-12", .returns true⟩
      "b.md" "b.epub" "imgs" none none none "svg" "en" rfl).1

/-! ## Lemmas about directive assembly -/

/-- The MathML directive is present exactly when the math format is the
string mathml. -/
lemma mathml_mem_build_extra_args (pe : String → Bool) (img : String)
    (t a c : Option String) (mf lang today : String) :
    Directive.mathml ∈ build_extra_args pe img t a c mf lang today ↔
      mf = "mathml" := by
  unfold build_extra_args math_args
  rcases t with _ | t <;> rcases a with _ | a <;> rcases c with _ | c <;>
    simp only [List.mem_append, List.mem_singleton, List.mem_cons,
      List.not_mem_nil] <;>
    split_ifs <;> simp_all

/-- The web-TeX directive is present exactly when the math format is the
string svg. -/
lemma webtex_mem_build_extra_args (pe : String → Bool) (img : String)
    (t a c : Option String) (mf lang today : String) :
    Directive.webtex ∈ build_extra_args pe img t a c mf lang today ↔
      mf = "svg" := by
  unfold build_extra_args math_args
  rcases t with _ | t <;> rcases a with _ | a <;> rcases c with _ | c <;>
    simp only [List.mem_append, List.mem_singleton, List.mem_cons,
      List.not_mem_nil] <;>
    split_ifs <;> simp_all

/-- C6: the math-format switch of the directive assembly — the value
mathml emits the MathML directive and not web-TeX, the value svg emits
web-TeX and not MathML, and any other value emits neither math
directive. -/
theorem C6_math_format_directive :
    ∀ (pe : String → Bool) (img : String) (t a c : Option String)
      (lang today : String),
    (Directive.mathml ∈ build_extra_args pe img t a c "mathml" lang today ∧
     Directive.webtex ∉ build_extra_args pe img t a c "mathml" lang today) ∧
    (Directive.webtex ∈ build_extra_args pe img t a c "svg" lang today ∧
     Directive.mathml ∉ build_extra_args pe img t a c "svg" lang today) ∧
    (∀ mf, mf ≠ "mathml" → mf ≠ "svg" →
      Directive.mathml ∉ build_extra_args pe img t a c mf lang today ∧
      Directive.webtex ∉ build_extra_args pe img t a c mf lang today) := by
  intro pe img t a c lang today
  refine ⟨⟨?_, ?_⟩, ⟨?_, ?_⟩, ?_⟩
  · exact (mathml_mem_build_extra_args pe img t a c "mathml" lang today).mpr rfl
  · rw [webtex_mem_build_extra_args]
    decide
  · exact (webtex_mem_build_extra_args pe img t a c "svg" lang today).mpr rfl
  · rw [mathml_mem_build_extra_args]
    decide
  · intro mf h1 h2
    rw [mathml_mem_build_extra_args, webtex_mem_build_extra_args]
    exact ⟨h1, h2⟩

/-- C6 witness: for a concrete assembly with an unrecognized math-format
value, both math directives are absent, and for the two recognized
values the respective directive is present. -/
theorem C6_math_format_directive_witness :
    Directive.mathml ∈
      build_extra_args (fun _ => false) "imgs" none none none "mathml" "en"
        "2026-10-12" ∧
    Directive.webtex ∈
      build_extra_args (fun _ => false) "imgs" none none none "svg" "en"
        "2026-10-12" ∧
    Directive.mathml ∉
      build_extra_args (fun _ => false) "imgs" none none none "tex" "en"
        "2026-10-12" := by
  refine ⟨?_, ?_, ?_⟩
  · exact (C6_math_format_directive (fun _ => false) "imgs" none none none
      "en" "2026-10-12").1.1
  · exact (C6_math_format_directive (fun _ => false) "imgs" none none none
      "en" "2026-10-12").2.1.1
  · exact ((C6_math_format_directive (fun _ => false) "imgs" none none none
      "en" "2026-10-12").2.2 "tex" (by decide) (by decide)).1

/-- C7: every directive list assembled by the formatting stage contains
the language metadata directive for the given language and the
publication-date metadata directive for the current date, whatever the
optional arguments are; and with the Python default language the
language directive is exactly lang=en. -/
theorem C7_lang_and_date_always_present :
    ∀ (pe : String → Bool) (img : String) (t a c : Option String)
      (mf lang today : String),
    Directive.metadata ("lang=" ++ lang) ∈
      build_extra_args pe img t a c mf lang today ∧
    Directive.metadata ("date=" ++ today) ∈
      build_extra_args pe img t a c mf lang today ∧
    Directive.metadata "lang=en" ∈
      build_extra_args pe img t a c mf default_language today := by
  intro pe img t a c mf lang today
  refine ⟨?_, ?_, ?_⟩
  · simp [build_extra_args, List.mem_append]
  · simp [build_extra_args, List.mem_append]
  · rw [show ("lang=en" : String) = "lang=" ++ default_language from rfl]
    simp [build_extra_args, List.mem_append]

/-! ## Theorems about the orchestration pipeline -/

/-- C5: an input path that does not exist makes `convert` fail with the
not-found condition, and an existing regular file whose extension fails
the case-insensitive `.pdf` test makes it fail with the validation
condition (ValueError) — in both cases before creating a workspace and
before either the extraction or the formatting stage is invoked. -/
theorem C5_input_validation_fails_first :
    ∀ (env : ConvertEnv) (pdf : String) (out title author cover : Option String)
      (mf : String) (sm : Option String) (lang : String),
    (env.path_exists pdf = false →
      (convert env pdf out title author cover mf sm lang).1 =
          .file_not_found ("File not found: " ++ pdf) ∧
      (convert env pdf out title author cover mf sm lang).2.marker_invoked = false ∧
      (convert env pdf out title author cover mf sm lang).2.pandoc_invoked = false ∧
      (convert env pdf out title author cover mf sm lang).2.workspace_created =
        false) ∧
    (env.path_exists pdf = true → env.is_file pdf = true →
      has_pdf_suffix pdf = false →
      (convert env pdf out title author cover mf sm lang).1 =
          .value_error ("Not a PDF file: " ++ pdf) ∧
      (convert env pdf out title author cover mf sm lang).2.marker_invoked = false ∧
      (convert env pdf out title author cover mf sm lang).2.pandoc_invoked = false ∧
      (convert env pdf out title author cover mf sm lang).2.workspace_created =
        false) := by
  intro env pdf out title author cover mf sm lang
  obtain ⟨pe, isf, td, ma, mao, cmf, pa, tod, pan, tpc, rf⟩ := env
  constructor
  · intro h
    simp only at h
    simp [convert, validate_pdf_file, h, no_workspace_trace]
  · intro h1 h2 h3
    simp only at h1 h2
    simp [convert, validate_pdf_file, h1, h2, h3, no_workspace_trace]

/-- C5 witness: with no path existing a concrete conversion fails with
the not-found condition, and an existing regular file named notes.txt
fails with the validation condition; neither invokes a stage. -/
theorem C5_input_validation_fails_first_witness :
    ((convert
      ⟨fun _ => false, fun _ => true, "/tmp/w", true,
       fun _ => none, none, true, "2026-10-12", .returns true, true, false⟩
      "ghost.pdf" none none none none "svg" none "en").1 =
      .file_not_found ("File not found: " ++ "ghost.pdf")) ∧
    ((convert
      ⟨fun _ => true, fun _ => true, "/tmp/w", true,
       fun _ => none, none, true, "2026-10-12", .returns true, true, false⟩
      "notes.txt" none none none none "svg" none "en").1 =
      .value_error ("Not a PDF file: " ++ "notes.txt")) ∧
    ((convert
      ⟨fun _ => true, fun _ => true, "/tmp/w", true,
       fun _ => none, none, true, "2026-10-12", .returns true, true, false⟩
      "notes.txt" none none none none "svg" none
      "en").2.marker_invoked = false) := by
  refine ⟨?_, ?_, ?_⟩
  · exact ((C5_input_validation_fails_first
      ⟨fun _ => false, fun _ => true, "/tmp/w", true,
       fun _ => none, none, true, "2026-10-12", .returns true, true, false⟩
      "ghost.pdf" none none none none "svg" none "en").1 rfl).1
  · exact ((C5_input_validation_fails_first
      ⟨fun _ => true, fun _ => true, "/tmp/w", true,
       fun _ => none, none, true, "2026-10-12", .returns true, true, false⟩
      "notes.txt" none none none none "svg" none "en").2 rfl rfl
      (by decide)).1
  · exact ((C5_input_validation_fails_first
      ⟨fun _ => true, fun _ => true, "/tmp/w", true,
       fun _ => none, none, true, "2026-10-12", .returns true, true, false⟩
      "notes.txt" none none none none "svg" none "en").2 rfl rfl
      (by decide)).2.1

/-- C4: whenever `convert` reaches workspace creation, the cleanup of the
temporary workspace runs before control returns, on success and on every
failure alike; a successful removal leaves no workspace behind; and the
outcome of the removal (which `ignore_errors=True` suppresses) never
changes the pipeline's result. -/
theorem C4_workspace_cleanup :
    ∀ (env : ConvertEnv) (pdf : String) (out title author cover : Option String)
      (mf : String) (sm : Option String) (lang : String),
    (convert env pdf out title author cover mf sm lang).2.workspace_created =
      true →
    (convert env pdf out title author cover mf sm lang).2.cleanup_run = true ∧
    (env.rmtree_fails = false →
      (convert env pdf out title author cover mf sm
        lang).2.workspace_present_after = false) ∧
    (∀ b, (convert { env with rmtree_fails := b } pdf out title author cover mf
        sm lang).1 =
      (convert env pdf out title author cover mf sm lang).1) := by
  intro env pdf out title author cover mf sm lang hw
  obtain ⟨pe, isf, td, ma, mao, cmf, pa, tod, pan, tpc, rf⟩ := env
  rcases hv : validate_pdf_file pe isf pdf with m | m | val
  · simp [convert, hv, no_workspace_trace] at hw
  · simp [convert, hv, no_workspace_trace] at hw
  · refine ⟨?_, ?_, ?_⟩
    · simp [convert, hv]
    · intro hr
      simp only at hr
      simp [convert, hv, hr]
    · intro b
      simp [convert, hv]

/-- C4 witness: in a concrete fully-successful conversion the workspace
is created, the cleanup runs, and no workspace remains. -/
theorem C4_workspace_cleanup_witness :
    (convert
      ⟨fun _ => true, fun _ => true, "/tmp/w", true,
       fun _ => none, none, true, "2026-10-12", .returns true, true, false⟩
      "book.pdf" none none none none "svg" none "en").2.cleanup_run = true := by
  exact (C4_workspace_cleanup
    ⟨fun _ => true, fun _ => true, "/tmp/w", true,
     fun _ => none, none, true, "2026-10-12", .returns true, true, false⟩
    "book.pdf" none none none none "svg" none "en" (by decide)).1

/-- The directive list recorded by a `run_pandoc` call is either empty
(capability unavailable) or exactly the assembled `extra_args`. -/
lemma run_pandoc_extra_args_cases (env : PandocEnv)
    (md out img : String) (t a c : Option String) (mf lang : String) :
    (run_pandoc env md out img t a c mf lang).2.extra_args = [] ∨
    (run_pandoc env md out img t a c mf lang).2.extra_args =
      build_extra_args env.path_exists img t a c mf lang env.today := by
  unfold run_pandoc
  by_cases h : env.pypandoc_available
  · simp only [h, Bool.not_true, Bool.false_eq_true, if_false]
    rcases hp : env.pandoc with msg | created
    · right
      simp
    · right
      by_cases hc : created <;> simp [hc]
  · left
    simp [h]

/-- On every execution path of `convert`, the recorded pandoc directive
list contains a math directive only as `math_args` of the very
math-format string handed to `convert`: the value is passed through
unchanged, with no normalization in the library layer. -/
lemma convert_math_directive_frame :
    ∀ (env : ConvertEnv) (pdf : String) (out : Option String)
      (t a c : Option String) (mf : String) (sm : Option String) (lang : String),
    (mf ≠ "mathml" →
      Directive.mathml ∉ (convert env pdf out t a c mf sm lang).2.pandoc_extra_args) ∧
    (mf ≠ "svg" →
      Directive.webtex ∉ (convert env pdf out t a c mf sm lang).2.pandoc_extra_args) := by
  intro env pdf out t a c mf sm lang
  obtain ⟨pe, isf, td, ma, mao, cmf, pa, tod, pan, tpc, rf⟩ := env
  rcases hv : validate_pdf_file pe isf pdf with m | m | val
  · constructor <;> intro _ <;> simp [convert, hv, no_workspace_trace]
  · constructor <;> intro _ <;> simp [convert, hv, no_workspace_trace]
  · have htrace : (convert ⟨pe, isf, td, ma, mao, cmf, pa, tod, pan, tpc, rf⟩
        pdf out t a c mf sm lang).2.pandoc_extra_args = [] ∨
      ∃ img, (convert ⟨pe, isf, td, ma, mao, cmf, pa, tod, pan, tpc, rf⟩
        pdf out t a c mf sm lang).2.pandoc_extra_args =
        build_extra_args pe img t a c mf lang tod := by
      simp only [convert, hv]
      rcases hm : run_marker ⟨ma, mao⟩ val td with ⟨mr, mt⟩
      rcases mr with msg | msg | ⟨mdp, imgd⟩
      · left
        simp [convert_body, hm]
      · left
        simp [convert_body, hm]
      · have hpand : ∀ (out2 : String),
            (convert_body ⟨ma, mao⟩ cmf ⟨pa, pe, tod, pan⟩ val td out2 t a c mf
              sm lang).2.2.2 = [] ∨
            ∃ img, (convert_body ⟨ma, mao⟩ cmf ⟨pa, pe, tod, pan⟩ val td out2 t
              a c mf sm lang).2.2.2 = build_extra_args pe img t a c mf lang tod := by
          intro out2
          have harg := run_pandoc_extra_args_cases ⟨pa, pe, tod, pan⟩ mdp out2
            imgd t a c mf lang
          rcases hp : run_pandoc ⟨pa, pe, tod, pan⟩ mdp out2 imgd t a c mf lang
            with ⟨pr, tr⟩
          rw [hp] at harg
          have hcopy : ∀ (co : Option String),
              (match co with
               | some msg => ((ConvertResult.os_error msg : ConvertResult), true,
                   false, ([] : List Directive))
               | none =>
                 match run_pandoc ⟨pa, pe, tod, pan⟩ mdp out2 imgd t a c mf lang with
                 | (.unavailable msg, tr2) => (.unavailable msg, true, true, tr2.extra_args)
                 | (.pandoc_error msg, tr2) => (.pandoc_error msg, true, true, tr2.extra_args)
                 | (.ok path, tr2) => (.ok path, true, true, tr2.extra_args)).2.2.2 = [] ∨
              ∃ img, (match co with
               | some msg => ((ConvertResult.os_error msg : ConvertResult), true,
                   false, ([] : List Directive))
               | none =>
                 match run_pandoc ⟨pa, pe, tod, pan⟩ mdp out2 imgd t a c mf lang with
                 | (.unavailable msg, tr2) => (.unavailable msg, true, true, tr2.extra_args)
                 | (.pandoc_error msg, tr2) => (.pandoc_error msg, true, true, tr2.extra_args)
                 | (.ok path, tr2) => (.ok path, true, true, tr2.extra_args)).2.2.2 =
                build_extra_args pe img t a c mf lang tod := by
            intro co
            rcases co with _ | msg
            case some =>
              left
              rfl
            · rw [hp]
              have h2 : tr.extra_args = [] ∨
                  tr.extra_args = build_extra_args pe imgd t a c mf lang tod := by
                simpa using harg
              rcases pr with msg | msg | path <;> rcases h2 with h | h <;>
                first
                | exact Or.inl h
                | exact Or.inr ⟨imgd, h⟩
          simp only [convert_body, hm]
          exact hcopy _
        simpa using hpand _
    constructor
    · intro hmf
      rcases htrace with h | ⟨img, h⟩
      · simp [h]
      · rw [h, mathml_mem_build_extra_args]
        exact hmf
    · intro hmf
      rcases htrace with h | ⟨img, h⟩
      · simp [h]
      · rw [h, webtex_mem_build_extra_args]
        exact hmf

/-- C10: the math-format comparison is exact and case-sensitive: any
casing other than the exact lowercase strings yields no math directive —
in the directive assembly, and hence through the library-level `convert`
API, which passes the value through unchanged; the lowercasing of the
user's choice happens only in the command-line layer, before `convert`
is called. -/
theorem C10_math_format_exact_case :
    (math_args "MathML" = [] ∧ math_args "SVG" = []) ∧
    (∀ s, s ≠ "mathml" → s ≠ "svg" → math_args s = []) ∧
    (∀ (pe : String → Bool) (img : String) (t a c : Option String)
       (lang today : String),
       Directive.mathml ∉ build_extra_args pe img t a c "MathML" lang today ∧
       Directive.webtex ∉ build_extra_args pe img t a c "SVG" lang today) ∧
    (∀ (env : ConvertEnv) (pdf : String) (out t a c : Option String)
       (sm : Option String) (lang : String),
       Directive.mathml ∉
         (convert env pdf out t a c "MathML" sm lang).2.pandoc_extra_args ∧
       Directive.webtex ∉
         (convert env pdf out t a c "SVG" sm lang).2.pandoc_extra_args) ∧
    (cli_math_format "MathML" = "mathml" ∧ cli_math_format "SVG" = "svg") := by
  refine ⟨⟨by decide, by decide⟩, ?_, ?_, ?_, by decide, by decide⟩
  · intro s h1 h2
    simp only [math_args, beq_iff_eq]
    rw [if_neg h1, if_neg h2]
  · intro pe img t a c lang today
    constructor
    · rw [mathml_mem_build_extra_args]
      decide
    · rw [webtex_mem_build_extra_args]
      decide
  · intro env pdf out t a c sm lang
    exact ⟨(convert_math_directive_frame env pdf out t a c "MathML" sm lang).1
        (by decide),
      (convert_math_directive_frame env pdf out t a c "SVG" sm lang).2
        (by decide)⟩

/-- C10 witness: a concrete wrongly-cased math format produces no math
directive, and the command-line layer lowercases it. -/
theorem C10_math_format_exact_case_witness :
    math_args "Mathml" = [] ∧ cli_math_format "MathML" = "mathml" := by
  constructor
  · exact C10_math_format_exact_case.2.1 "Mathml" (by decide) (by decide)
  · exact C10_math_format_exact_case.2.2.2.2.1

end Pdf2Epub
